import Mathlib

/-!
Verification of the nutrition computation engine of a calorie-tracker
application (React-Native client + Express/Mongoose backend).

The business logic embedded here comes from the backend source:
* `MealSchema.pre('save')` — recomputes a meal's cached totals from its
  items, using the placeholder scaling factor `factor = item.quantity`;
* `registerUser` — the goal computation: calorie goal from TDEE plus a
  fixed ±500 offset, protein/fat/carb targets with JavaScript
  `Math.round` rounding.

Components the specification describes but whose code is not in the
repository snapshot (UnitConverter, StatsAggregator) are modelled from
the specification text and marked as such in their doc comments.

Numeric values are embedded as rationals (`ℚ`); JavaScript `Math.round`
(round half toward positive infinity) is `jsRound`.
-/

/-- The macro-nutrient record `{protein, carbs, fat}` (grams), as in the
`macros`/`totalMacros`/`macroGoals` sub-documents of the Mongoose schemas. -/
structure Macros where
  protein : ℚ
  carbs : ℚ
  fat : ℚ
deriving DecidableEq, Repr

/-- `servingSize: {amount, unit}` of the Food schema. -/
structure ServingSize where
  amount : ℚ
  unit : String
deriving DecidableEq, Repr

/-- The fields of the Food schema used by the nutrition engine:
name, canonical serving size, calories per serving, macros per serving. -/
structure Food where
  name : String
  servingSize : ServingSize
  calories : ℚ
  macros : Macros
deriving DecidableEq, Repr

/-- A `FoodItemSchema` entry of a meal: the referenced food (assumed
populated, as the pre-save hook's comment states), a quantity and a unit. -/
structure FoodItem where
  food : Food
  quantity : ℚ
  unit : String
deriving DecidableEq, Repr

/-- The Meal document fields relevant to the pre-save hook. Timestamps are
day indices (`ℤ`), which suffices for the calendar-day filtering done by
the stats layer. -/
structure Meal where
  user : String
  name : String
  type : String
  items : List FoodItem
  date : ℤ
  totalCalories : ℚ
  totalMacros : Macros
  isFavorite : Bool
  notes : String
  createdAt : ℤ
deriving DecidableEq, Repr

/-- The running totals accumulated by the pre-save hook:
`totalCals, totalProtein, totalCarbs, totalFat`. -/
structure RunningTotals where
  cals : ℚ
  protein : ℚ
  carbs : ℚ
  fat : ℚ
deriving DecidableEq, Repr

/-- One step of the hook's `items.forEach` body:
`const factor = item.quantity;` then the four `+=` accumulations.
The factor is the raw quantity regardless of the unit — this is the
source's placeholder (`// À adapter selon les unités`). -/
def accumItem (acc : RunningTotals) (item : FoodItem) : RunningTotals :=
  let factor := item.quantity
  { cals := acc.cals + item.food.calories * factor
    protein := acc.protein + item.food.macros.protein * factor
    carbs := acc.carbs + item.food.macros.carbs * factor
    fat := acc.fat + item.food.macros.fat * factor }

/-- `MealSchema.pre('save')`: starting from zero totals, fold the
accumulation over `this.items`, then write `this.totalCalories` and
`this.totalMacros`. -/
def mealPreSave (m : Meal) : Meal :=
  let t := m.items.foldl accumItem ⟨0, 0, 0, 0⟩
  { m with
    totalCalories := t.cals
    totalMacros := ⟨t.protein, t.carbs, t.fat⟩ }

/-- Error outcomes of unit conversion described in the specification. -/
inductive ConvError where
  | invalidQuantity
  | unsupportedUnit
deriving DecidableEq, Repr

/-- Modelled from the spec: the recognized unit table of UnitConverter
(the UnitConverter source is absent from the repository snapshot). Each
recognized unit maps to its unit family and its factor to the family's
base unit (grams↔kilograms, milliliters↔liters). -/
def unitBase (u : String) : Option (String × ℚ) :=
  if u = "g" then some ("mass", 1)
  else if u = "kg" then some ("mass", 1000)
  else if u = "ml" then some ("volume", 1)
  else if u = "l" then some ("volume", 1000)
  else none

/-- Unit-string normalization for the spec's case-insensitive, trimmed
comparison: drop surrounding spaces, lower-case every character. -/
def normUnit (s : String) : String :=
  ⟨((s.data.dropWhile (· = ' ')).reverse.dropWhile (· = ' ')).reverse.map
      Char.toLower⟩

/-- Modelled from the spec: `UnitConverter.convert(quantity, unit,
servingSize) → multiplier` (the UnitConverter source is absent from the
repository snapshot). Negative quantity fails with `InvalidQuantityError`;
a unit equal to the serving's unit (case-insensitive, trimmed) divides by
the serving amount; a recognized unit of the same family converts through
the base unit; anything else fails with `UnsupportedUnitError`. -/
def convert (quantity : ℚ) (unit : String) (serving : ServingSize) :
    Except ConvError ℚ :=
  if quantity < 0 then .error .invalidQuantity
  else
    let u := normUnit unit
    let su := normUnit serving.unit
    if u = su then .ok (quantity / serving.amount)
    else
      match unitBase u, unitBase su with
      | some (f₁, k₁), some (f₂, k₂) =>
          if f₁ = f₂ then .ok ((quantity * k₁) / (serving.amount * k₂))
          else .error .unsupportedUnit
      | _, _ => .error .unsupportedUnit

/-- JavaScript `Math.round`: round to the nearest integer, halves toward
positive infinity, i.e. `⌊x + 1/2⌋`. -/
def jsRound (q : ℚ) : ℤ := ⌊q + 1 / 2⌋

/-- The goal values computed in `registerUser`: `dailyCalorieGoal` and
the three `macroGoals` fields. The calorie goal is stored unrounded; the
macro targets are integers produced by `Math.round`. -/
structure GoalResult where
  calorieGoal : ℚ
  protein : ℤ
  carbs : ℤ
  fat : ℤ
deriving DecidableEq, Repr

/-- The goal computation of `registerUser` (backend userController),
with the TDEE returned by `calculateTDEE` taken as an input:
`calorieGoal = tdee` adjusted by −500 for "lose" and +500 for "gain";
`protein = Math.round(weight * 2.0)`;
`fat = Math.round((calorieGoal * 0.25) / 9)`;
`remainingCalories = calorieGoal - protein*4 - fat*9` (using the already
rounded protein and fat); `carbs = Math.round(remainingCalories / 4)`. -/
def computeGoals (tdee weight : ℚ) (goal : String) : GoalResult :=
  let calorieGoal : ℚ :=
    if goal = "lose" then tdee - 500
    else if goal = "gain" then tdee + 500
    else tdee
  let proteinPerKg : ℚ := 2
  let protein := jsRound (weight * proteinPerKg)
  let fat := jsRound ((calorieGoal * (1 / 4)) / 9)
  let remainingCalories : ℚ := calorieGoal - (protein * 4) - (fat * 9)
  let carbs := jsRound (remainingCalories / 4)
  ⟨calorieGoal, protein, carbs, fat⟩

/-- A verbatim transcription of the specification's carbohydrate rule,
for comparison with `computeGoals`: the remainder is taken from the
UNROUNDED protein and fat kcal contributions, and rounding is applied to
the carbohydrate only once at the end. -/
def specCarbsUnrounded (tdee weight : ℚ) (goal : String) : ℤ :=
  let calorieGoal : ℚ :=
    if goal = "lose" then tdee - 500
    else if goal = "gain" then tdee + 500
    else tdee
  let proteinKcal : ℚ := (weight * 2) * 4
  let fatKcal : ℚ := ((calorieGoal * (1 / 4)) / 9) * 9
  jsRound ((calorieGoal - proteinKcal - fatKcal) / 4)

/-- A day's aggregate as produced by the stats layer and consumed by the
dashboard: total calories, total macros, and `remaining = goal − total`. -/
structure DailyStat where
  date : ℤ
  calories : ℚ
  macros : Macros
  remaining : ℚ
deriving DecidableEq, Repr

/-- Modelled from the spec: `NutrientAggregator.aggregateDay` (the
aggregator module is absent from the repository snapshot) — sum each
meal's cached totals component-wise; meals are never re-expanded. -/
def aggregateDay (meals : List Meal) : ℚ × Macros :=
  meals.foldl
    (fun acc m =>
      ⟨acc.1 + m.totalCalories,
       ⟨acc.2.protein + m.totalMacros.protein,
        acc.2.carbs + m.totalMacros.carbs,
        acc.2.fat + m.totalMacros.fat⟩⟩)
    ⟨0, ⟨0, 0, 0⟩⟩

/-- Modelled from the spec: `StatsAggregator.dailyStat(meals, targetDate)`
(the aggregator module is absent from the repository snapshot) — filter
the meals to the target calendar day, aggregate with `aggregateDay`, and
set `remaining = goal.energy − total.energy`. -/
def dailyStat (meals : List Meal) (targetDate : ℤ) (goalEnergy : ℚ) :
    DailyStat :=
  let dayMeals := meals.filter (fun m => m.date = targetDate)
  let t := aggregateDay dayMeals
  ⟨targetDate, t.1, t.2, goalEnergy - t.1⟩

/-- Modelled from the spec: `StatsAggregator.weeklyStat(meals, startDate,
dayCount)` (the aggregator module is absent from the repository
snapshot) — one `DailyStat` per calendar day of
`[startDate, startDate + dayCount − 1]`, ascending, days without meals
included as zero-filled entries. -/
def weeklyStat (meals : List Meal) (startDate : ℤ) (dayCount : ℕ)
    (goalEnergy : ℚ) : List DailyStat :=
  (List.range dayCount).map
    (fun i : ℕ => dailyStat meals (startDate + (i : ℤ)) goalEnergy)

/-! Concrete fixtures used by the counterexample and evaluation theorems. -/

/-- The food of the specification's concrete scenario: serving
`{amount: 100, unit: "g"}`, 50 kcal per serving. -/
def gramFood : Food := ⟨"testfood", ⟨100, "g"⟩, 50, ⟨4, 6, 1⟩⟩

/-- A meal holding one item of `gramFood`, quantity 200, unit "g". -/
def mealGram : Meal :=
  ⟨"u1", "lunch", "lunch", [⟨gramFood, 200, "g"⟩], 0, 0, ⟨0, 0, 0⟩,
   false, "", 0⟩

/-- A meal holding one item of `gramFood`, quantity 3, unit "piece". -/
def mealPiece : Meal :=
  ⟨"u1", "snack", "snack", [⟨gramFood, 3, "piece"⟩], 0, 0, ⟨0, 0, 0⟩,
   false, "", 0⟩

/-! Helper lemmas. -/

/-- The fold of the pre-save hook computes, in each component, the start
value plus the sum of the per-item contributions `value × quantity`. -/
theorem foldl_accumItem (l : List FoodItem) (a : RunningTotals) :
    l.foldl accumItem a =
      ⟨a.cals + (l.map (fun i => i.food.calories * i.quantity)).sum,
       a.protein + (l.map (fun i => i.food.macros.protein * i.quantity)).sum,
       a.carbs + (l.map (fun i => i.food.macros.carbs * i.quantity)).sum,
       a.fat + (l.map (fun i => i.food.macros.fat * i.quantity)).sum⟩ := by
  induction l generalizing a with
  | nil => simp
  | cons x xs ih =>
      simp only [List.foldl_cons, List.map_cons, List.sum_cons, ih, accumItem,
        RunningTotals.mk.injEq]
      refine ⟨?_, ?_, ?_, ?_⟩ <;> ring

/-- The cached totals written by the hook, as sums over the item list. -/
theorem mealPreSave_totals (m : Meal) :
    (mealPreSave m).totalCalories =
        (m.items.map (fun i => i.food.calories * i.quantity)).sum ∧
      (mealPreSave m).totalMacros =
        ⟨(m.items.map (fun i => i.food.macros.protein * i.quantity)).sum,
         (m.items.map (fun i => i.food.macros.carbs * i.quantity)).sum,
         (m.items.map (fun i => i.food.macros.fat * i.quantity)).sum⟩ := by
  simp [mealPreSave, foldl_accumItem]

/-- Claim C1: the claim asserts that each item contributes its food's
nutrient vector scaled by the unit-aware UnitConverter multiplier, so
that quantity 200 g against a 100 g serving with 50 kcal contributes
100 kcal. The pre-save hook of the source instead uses the raw quantity
as the factor: on that exact input it writes 10000 kcal
(= 50 × 200) into the cached total, while the unit-aware multiplier is
2 and the intended contribution is 2 × 50 = 100 kcal. The hook's own
comments call the computation a placeholder to be adapted to the units,
so the code, not the claim, is at fault. -/
theorem c1_presave_ignores_units :
    (mealPreSave mealGram).totalCalories = 10000 ∧
      convert 200 "g" ⟨100, "g"⟩ = .ok 2 ∧
      (2 : ℚ) * gramFood.calories = 100 ∧
      (mealPreSave mealGram).totalCalories ≠ 100 := by
  have hg : normUnit "g" = "g" := by decide
  refine ⟨?_, ?_, ?_, ?_⟩
  · norm_num [mealPreSave, accumItem, mealGram, gramFood]
  · norm_num [convert, hg]
  · norm_num [gramFood]
  · norm_num [mealPreSave, accumItem, mealGram, gramFood]

/-- Claim C5: the claim asserts that a meal item whose unit is
incompatible with the food's serving-unit family (unit "piece" against a
"g" serving, no piece weight) makes aggregation fail with
UnsupportedUnitError and no partial totals. The conversion indeed has no
path for "piece" against "g", but the pre-save hook of the source never
consults the unit: on that exact input it silently writes totals scaled
by the raw quantity 3 (150 kcal) instead of aborting. The hook's own
comments call the computation a placeholder to be adapted to the units,
so the code, not the claim, is at fault. -/
theorem c5_presave_silently_accepts_piece :
    convert 3 "piece" ⟨100, "g"⟩ = .error .unsupportedUnit ∧
      (mealPreSave mealPiece).totalCalories = 150 ∧
      (mealPreSave mealPiece).totalMacros = ⟨12, 18, 3⟩ := by
  have hp : normUnit "piece" = "piece" := by decide
  have hg : normUnit "g" = "g" := by decide
  have hu : unitBase "piece" = none := by simp [unitBase]
  refine ⟨?_, ?_, ?_⟩
  · norm_num [convert, hp, hg, hu, show ("piece" = "g") = False from by decide]
  · norm_num [mealPreSave, accumItem, mealPiece, gramFood]
  · norm_num [mealPreSave, accumItem, mealPiece, gramFood]

/-- Claim C2 counterexample: the claim says the carbohydrate remainder is
computed from the UNROUNDED protein and fat kcal contributions. In the
source, `remainingCalories` uses the already rounded `protein` and `fat`.
At tdee = 2000, weight = 70.3 kg, goal "maintain" the code yields
carbs = 233 while the claim's unrounded-remainder rule yields 234. -/
theorem c2_counterexample :
    (computeGoals 2000 (703 / 10) "maintain").carbs = 233 ∧
      specCarbsUnrounded 2000 (703 / 10) "maintain" = 234 ∧
      (computeGoals 2000 (703 / 10) "maintain").carbs ≠
        specCarbsUnrounded 2000 (703 / 10) "maintain" := by
  refine ⟨?_, ?_, ?_⟩
  · simp only [computeGoals, jsRound]
    rw [if_neg (by decide), if_neg (by decide)]
    norm_num
  · simp only [specCarbsUnrounded, jsRound]
    rw [if_neg (by decide), if_neg (by decide)]
    norm_num
  · simp only [computeGoals, specCarbsUnrounded, jsRound]
    rw [if_neg (by decide), if_neg (by decide)]
    norm_num

/-- Claim C2 (amended): protein, fat and carbohydrate are each rounded
once, independently, with `Math.round`; the energy goal itself is not
rounded; and the carbohydrate remainder is computed from the ROUNDED
protein and fat kcal contributions (`protein × 4` and `fat × 9` with the
integer targets), then rounded once. -/
theorem c2_rounding_amended (tdee weight : ℚ) (goal : String) :
    (computeGoals tdee weight goal).protein = jsRound (weight * 2) ∧
      (computeGoals tdee weight goal).fat =
        jsRound ((computeGoals tdee weight goal).calorieGoal / 36) ∧
      (computeGoals tdee weight goal).carbs =
        jsRound (((computeGoals tdee weight goal).calorieGoal
          - 4 * ((computeGoals tdee weight goal).protein : ℚ)
          - 9 * ((computeGoals tdee weight goal).fat : ℚ)) / 4) := by
  refine ⟨rfl, ?_, ?_⟩
  · simp only [computeGoals]
    congr 1
    ring
  · simp only [computeGoals]
    congr 1
    ring

/-- Claim C3 counterexample: the claim says a negative carbohydrate-energy
remainder is clamped to zero with a GoalUnderflowWarning. The source has
no clamping and no warning: at tdee = 600, weight = 70 kg, goal "lose"
the remainder is −487 kcal and the stored carbohydrate target is −122 g,
not 0. -/
theorem c3_counterexample :
    (computeGoals 600 70 "lose").calorieGoal
        - 4 * ((computeGoals 600 70 "lose").protein : ℚ)
        - 9 * ((computeGoals 600 70 "lose").fat : ℚ) = -487 ∧
      (computeGoals 600 70 "lose").carbs = -122 ∧
      (computeGoals 600 70 "lose").carbs ≠ 0 := by
  refine ⟨?_, ?_, ?_⟩ <;>
    · simp only [computeGoals, jsRound, if_true]
      norm_num

/-- Claim C3 (amended): the goal computation never clamps: whenever the
energy remainder left after the rounded protein and fat allocations is
below −2 kcal, the carbohydrate target stored by `registerUser` is
strictly negative, and no warning of any kind is reported. -/
theorem c3_negative_carbs_amended (tdee weight : ℚ) (goal : String)
    (h : (computeGoals tdee weight goal).calorieGoal
        - 4 * ((computeGoals tdee weight goal).protein : ℚ)
        - 9 * ((computeGoals tdee weight goal).fat : ℚ) < -2) :
    (computeGoals tdee weight goal).carbs < 0 := by
  simp only [computeGoals, jsRound] at h ⊢
  refine Int.lt_of_lt_of_le (Int.floor_lt.2 ?_) le_rfl
  push_cast
  linarith

/-- Claim C3 witness: the pathological input tdee = 600, weight = 70,
goal "lose" satisfies the negative-remainder hypothesis and indeed gets
a negative carbohydrate target. -/
theorem c3_negative_carbs_witness : (computeGoals 600 70 "lose").carbs < 0 :=
  c3_negative_carbs_amended 600 70 "lose"
    (by simp only [computeGoals, jsRound, if_true]; norm_num)

/-- Claim C4: the calorie goal is the TDEE baseline adjusted only by a
fixed constant offset chosen by the goal direction: unchanged for
"maintain", −500 kcal for "lose", +500 kcal for "gain", for every
baseline and body weight. -/
theorem c4_goal_offset (tdee weight : ℚ) :
    (computeGoals tdee weight "maintain").calorieGoal = tdee ∧
      (computeGoals tdee weight "lose").calorieGoal = tdee - 500 ∧
      (computeGoals tdee weight "gain").calorieGoal = tdee + 500 :=
  ⟨rfl, rfl, rfl⟩

/-- Claim C6: for every meal list, start day and day count, `weeklyStat`
returns exactly `dayCount` entries, whose dates are the ascending run
`start, start+1, …, start+dayCount−1` (so the inclusive range is covered
in chronological order), and every covered day with no matching meals
appears as a zero-filled entry rather than being omitted. -/
theorem c6_weeklyStat_shape (meals : List Meal) (start : ℤ) (n : ℕ)
    (goalEnergy : ℚ) :
    (weeklyStat meals start n goalEnergy).length = n ∧
      (weeklyStat meals start n goalEnergy).map DailyStat.date =
        (List.range n).map (fun i : ℕ => start + (i : ℤ)) ∧
      ∀ e ∈ weeklyStat meals start n goalEnergy,
        meals.filter (fun m => m.date = e.date) = [] →
          e.calories = 0 ∧ e.macros = ⟨0, 0, 0⟩ := by
  refine ⟨?_, ?_, ?_⟩
  · simp only [weeklyStat, List.length_map, List.length_range]
  · simp only [weeklyStat, List.map_map]
    rfl
  · intro e he hf
    simp only [weeklyStat, List.mem_map, List.mem_range] at he
    obtain ⟨i, hi, rfl⟩ := he
    have hd : (dailyStat meals (start + (i : ℤ)) goalEnergy).date =
        start + (i : ℤ) := rfl
    rw [hd] at hf
    simp only [dailyStat, hf]
    exact ⟨rfl, rfl⟩

/-- Claim C6 witness: with no meals at all, `weeklyStat` over 7 days from
day 0 still returns 7 entries, and the entry for day 0 (a day with no
matching meals) has zero calories. -/
theorem c6_weeklyStat_witness :
    (weeklyStat [] 0 7 2000).length = 7 ∧
      (dailyStat [] 0 2000).calories = 0 := by
  have h := c6_weeklyStat_shape [] 0 7 2000
  have he : dailyStat [] 0 2000 ∈ weeklyStat [] 0 7 2000 := by
    simp only [weeklyStat, List.mem_map, List.mem_range]
    exact ⟨0, by norm_num, by norm_num⟩
  exact ⟨h.1, (h.2.2 _ he rfl).1⟩

/-- Claim C7: for a date with no logged meals, `dailyStat` returns zero
calories, a zero macro vector, and `remaining` equal to the full daily
energy goal. -/
theorem c7_dailyStat_empty_day (meals : List Meal) (d : ℤ) (goalEnergy : ℚ)
    (h : meals.filter (fun m => m.date = d) = []) :
    dailyStat meals d goalEnergy = ⟨d, 0, ⟨0, 0, 0⟩, goalEnergy⟩ := by
  simp [dailyStat, h, aggregateDay]

/-- Claim C7 witness: with an empty meal log and a 2000 kcal goal, day 0
yields the all-zero stat with `remaining` = 2000. -/
theorem c7_dailyStat_empty_day_witness :
    dailyStat [] 0 2000 = ⟨0, 0, ⟨0, 0, 0⟩, 2000⟩ :=
  c7_dailyStat_empty_day [] 0 2000 rfl

/-- Claim C8: the pre-save aggregation is order-independent: a meal whose
item list is any permutation of another's gets identical cached totals
(exactly equal over the exact rational embedding, hence within any
floating-point tolerance). -/
theorem c8_aggregate_perm (m : Meal) (l₁ l₂ : List FoodItem)
    (h : l₁.Perm l₂) :
    (mealPreSave { m with items := l₁ }).totalCalories =
        (mealPreSave { m with items := l₂ }).totalCalories ∧
      (mealPreSave { m with items := l₁ }).totalMacros =
        (mealPreSave { m with items := l₂ }).totalMacros := by
  have h1 := mealPreSave_totals { m with items := l₁ }
  have h2 := mealPreSave_totals { m with items := l₂ }
  constructor
  · rw [h1.1, h2.1]
    exact (h.map _).sum_eq
  · rw [h1.2, h2.2]
    simp only [Macros.mk.injEq]
    exact ⟨(h.map _).sum_eq, (h.map _).sum_eq, (h.map _).sum_eq⟩

/-- Claim C8 witness: swapping the two items of a concrete meal leaves
the cached calorie total unchanged. -/
theorem c8_aggregate_perm_witness :
    (mealPreSave { mealGram with
        items := [⟨gramFood, 1, "g"⟩, ⟨gramFood, 2, "g"⟩] }).totalCalories =
      (mealPreSave { mealGram with
        items := [⟨gramFood, 2, "g"⟩, ⟨gramFood, 1, "g"⟩] }).totalCalories :=
  (c8_aggregate_perm mealGram _ _ (List.Perm.swap _ _ _)).1

/-- Claim C9: the pre-save hook writes only the cached-total fields: for
every meal, items, user, name, type, date, isFavorite, notes and
createdAt are unchanged by `mealPreSave`. -/
theorem c9_presave_frame (m : Meal) :
    (mealPreSave m).items = m.items ∧
      (mealPreSave m).user = m.user ∧
      (mealPreSave m).name = m.name ∧
      (mealPreSave m).type = m.type ∧
      (mealPreSave m).date = m.date ∧
      (mealPreSave m).isFavorite = m.isFavorite ∧
      (mealPreSave m).notes = m.notes ∧
      (mealPreSave m).createdAt = m.createdAt :=
  ⟨rfl, rfl, rfl, rfl, rfl, rfl, rfl, rfl⟩

/-- Claim C10: a meal with an empty item list gets exactly zero cached
totals: totalCalories 0 and totalMacros all zero. -/
theorem c10_empty_items_zero (m : Meal) (h : m.items = []) :
    (mealPreSave m).totalCalories = 0 ∧
      (mealPreSave m).totalMacros = ⟨0, 0, 0⟩ := by
  simp [mealPreSave, h]

/-- Claim C10 witness: the concrete meal with its items removed gets zero
totals. -/
theorem c10_empty_items_zero_witness :
    (mealPreSave { mealGram with items := [] }).totalCalories = 0 ∧
      (mealPreSave { mealGram with items := [] }).totalMacros = ⟨0, 0, 0⟩ :=
  c10_empty_items_zero { mealGram with items := [] } rfl
